import Mathlib

/-
Verification of the gated file-distribution bot (src/bot.py) against its
natural-language specification.

The source is a single Python file.  We shallowly embed its pure logic:

* The Mongo collection `files_collection` becomes `Store := List FileDoc`,
  with documents kept in insertion order (Mongo natural order for a plain
  collection): `insert_one` appends at the end, `find_one` returns the
  first match, `update_one` updates the first match.
* A document's `revoked` field is `Option Bool`, because `start` reads it
  with `file_doc.get('revoked', False)` — a document seeded without the
  field is legal and defaults to `False`.
* Python string operations used by the handlers are embedded with Python
  semantics: `str.replace(pat, repl)` replaces every non-overlapping
  occurrence left to right (`pyReplace`), `str.startswith` checks a
  prefix (`pyStartsWith`), `channel[1:]` drops the first character
  (`pySlice1`).
* The Telegram transport is a parameter: `get_chat_member` becomes an
  oracle `String → Option String` giving the membership status of the
  requesting user in a channel (`none` models the `except:` branch, i.e.
  any query failure).
* `generate_link` (bot.py line 47-48) reads `context.bot.username`, but
  `context` is a free name at module scope — no global of that name
  exists — so calling it raises `NameError` before the f-string consumes
  `file_id`.  We embed it as an `Except` value that is always an error;
  `handle_media` faithfully propagates that error and never reaches its
  `insert_one` statement.
-/

/-- One document of `files_collection` (bot.py line 22): file_id, link,
revoked flag, and timestamp.  `revoked` is optional because the reader
uses `.get('revoked', False)`. -/
structure FileDoc where
  file_id : String
  link : String
  revoked : Option Bool
  timestamp : Nat
deriving DecidableEq

/-- The `files_collection` in insertion order. -/
def Store := List FileDoc
deriving DecidableEq

/-- `find_one({'file_id': fid})` (bot.py line 63): first document whose
`file_id` equals the key, if any. -/
def find_one : Store → String → Option FileDoc
  | [], _ => none
  | d :: ds, fid => if d.file_id = fid then some d else find_one ds fid

/-- `update_one({'file_id': fid}, {'$set': {'revoked': True}})`
(bot.py line 123): sets `revoked` to `True` on the first matching
document only; a store with no match is returned unchanged. -/
def update_one_revoked : Store → String → Store
  | [], _ => []
  | d :: ds, fid =>
    if d.file_id = fid then { d with revoked := some true } :: ds
    else d :: update_one_revoked ds fid

/-- `insert_one({...})` (bot.py lines 99-104): appends a fresh document
with `revoked = False` and the current timestamp. -/
def insert_record (fid link : String) (ts : Nat) (s : Store) : Store :=
  List.append s [{ file_id := fid, link := link, revoked := some false, timestamp := ts }]

/-- Python `s.startswith(marker)`. -/
def pyStartsWith (s marker : String) : Bool :=
  marker.data.isPrefixOf s.data

/-- Python `str.replace` on character lists: every non-overlapping
occurrence of `pat` is replaced by `repl`, scanning left to right.  The
fuel argument bounds the recursion; for a non-empty `pat` each step
consumes at least one character, so fuel = length of the input is
enough (the source only ever calls this with the non-empty patterns
`"file_"` and `"revoke_"`). -/
def pyReplaceFuel (pat repl : List Char) : Nat → List Char → List Char
  | _, [] => []
  | 0, l => l
  | fuel + 1, c :: cs =>
    if pat.isPrefixOf (c :: cs) then
      List.append repl (pyReplaceFuel pat repl fuel ((c :: cs).drop pat.length))
    else
      c :: pyReplaceFuel pat repl fuel cs

/-- Python `s.replace(pat, repl)` as used at bot.py lines 62 and 122. -/
def pyReplace (s pat repl : String) : String :=
  ⟨pyReplaceFuel pat.data repl.data s.data.length s.data⟩

/-- Python `channel[1:]` (bot.py line 55). -/
def pySlice1 (s : String) : String := ⟨s.data.drop 1⟩

/-- `pat` occurs as a contiguous sub-sequence somewhere in the list. -/
def hasOccur (pat : List Char) : List Char → Bool
  | [] => pat.isPrefixOf []
  | c :: cs => pat.isPrefixOf (c :: cs) || hasOccur pat cs

/-- The statuses accepted by `is_subscribed` (bot.py line 40). -/
def okStatus (s : String) : Bool :=
  ["member", "administrator", "creator"].contains s

/-- `is_subscribed` (bot.py lines 35-44) for a fixed requesting user:
`oracle c` is the status returned by `get_chat_member(c, user_id)`, with
`none` standing for the `except:` branch (any query failure).  The loop
returns `False` at the first channel whose status is missing or not in
the accepted list, and `True` once every channel passed. -/
def is_subscribed (oracle : String → Option String) : List String → Bool
  | [] => true
  | c :: rest =>
    match oracle c with
    | none => false
    | some s => if okStatus s then is_subscribed oracle rest else false

/-- The channels actually queried by the loop of `is_subscribed`
(bot.py lines 37-43), in order: the loop stops right after the first
channel that fails. -/
def gate_queries (oracle : String → Option String) : List String → List String
  | [] => []
  | c :: rest =>
    match oracle c with
    | none => [c]
    | some s => if okStatus s then c :: gate_queries oracle rest else [c]

/-- Whether a single channel is satisfied: the query succeeded and the
status is one of the accepted ones. -/
def satisfies (oracle : String → Option String) (c : String) : Bool :=
  match oracle c with
  | none => false
  | some s => okStatus s

/-- A Python runtime error surfaced by a handler. -/
inductive PyErr
  | nameError (name : String)
deriving DecidableEq

/-- `generate_link` (bot.py lines 47-48).  The body is
`f"https://t.me/{context.bot.username}?start=file_{file_id}"`, but
`context` is not bound at module scope (it is only a parameter of the
handler functions), so evaluating the f-string raises
`NameError: name 'context' is not defined` before `file_id` is used. -/
def generate_link (_file_id : String) : Except PyErr String :=
  Except.error (PyErr.nameError "context")

/-- Observable outcome of the `/start` handler. -/
structure StartOut where
  replies : List String
  keyboard : List (String × String)
  sentDocs : List (Int × String)
  lookups : List String
  store : Store
deriving DecidableEq

/-- The greeting branch of `start` (bot.py line 70). -/
def start_greeting (user_mention : String) (store : Store) : StartOut :=
  { replies := ["Hello " ++ user_mention ++ "! Use /upload to share files (admin only)."],
    keyboard := [], sentDocs := [], lookups := [], store := store }

/-- `start` (bot.py lines 51-70).  `oracle`/`channels` drive the
subscription gate; `args` is `context.args`; `lookups` records each
`file_id` key passed to `find_one`, and `sentDocs` each
`send_document(chat_id, document)` call. -/
def start (oracle : String → Option String) (channels : List String)
    (user_id : Int) (user_mention : String) (args : List String) (store : Store) : StartOut :=
  if is_subscribed oracle channels then
    match args with
    | arg :: _ =>
      if pyStartsWith arg "file_" then
        match find_one store (pyReplace arg "file_" "") with
        | some d =>
          if !(d.revoked.getD false) then
            { replies := ["Accessing file..."], keyboard := [],
              sentDocs := [(user_id, d.file_id)],
              lookups := [pyReplace arg "file_" ""], store := store }
          else
            { replies := ["Link expired or invalid."], keyboard := [], sentDocs := [],
              lookups := [pyReplace arg "file_" ""], store := store }
        | none =>
          { replies := ["Link expired or invalid."], keyboard := [], sentDocs := [],
            lookups := [pyReplace arg "file_" ""], store := store }
      else
        start_greeting user_mention store
    | [] => start_greeting user_mention store
  else
    { replies := ["Please subscribe to all our channels to use this bot."],
      keyboard := channels.map (fun c => ("Subscribe to " ++ c, "https://t.me/" ++ pySlice1 c)),
      sentDocs := [], lookups := [], store := store }

/-- `/upload` (bot.py lines 73-77): reply text only, no state touched. -/
def upload (admin_id uid : Int) : List String :=
  if uid ≠ admin_id then ["Only admin can upload."]
  else ["Send me a file, photo, or video to upload."]

/-- An inbound Telegram message's media fields: `document` and `video`
carry one `file_id`, `photo` a list of resolutions (possibly empty; the
code indexes `photo[-1]` only after a truthiness check). -/
structure Msg where
  document : Option String
  photo : List String
  video : Option String
  message_id : Nat
deriving DecidableEq

/-- The media dispatch of `handle_media` (bot.py lines 86-92):
document first, else the last (highest-resolution) photo variant, else
video; `none` means the `else` branch "Unsupported file type." -/
def extract_file_id (m : Msg) : Option String :=
  match m.document with
  | some fid => some fid
  | none =>
    match m.photo.getLast? with
    | some fid => some fid
    | none => m.video

/-- Observable outcome of `handle_media`: resulting store, replies,
inline buttons `(label, callback_data)`, scheduled jobs
`(delay seconds, message_id)` and a propagated Python error, if any. -/
structure MediaOut where
  store : Store
  replies : List String
  buttons : List (String × String)
  jobs : List (Nat × Nat)
  err : Option PyErr
deriving DecidableEq

/-- `handle_media` (bot.py lines 80-112).  The admin check comes first;
then the media dispatch; then `generate_link` — which raises, so the
`insert_one`/reply/job tail (lines 99-112, embedded in the `.ok`
branch) is dead code in the source as written. -/
def handle_media (admin_id uid : Int) (m : Msg) (now delete_minutes : Nat)
    (store : Store) : MediaOut :=
  if uid ≠ admin_id then
    { store := store, replies := ["Only admin can upload files."],
      buttons := [], jobs := [], err := none }
  else
    match extract_file_id m with
    | none =>
      { store := store, replies := ["Unsupported file type."],
        buttons := [], jobs := [], err := none }
    | some fid =>
      match generate_link fid with
      | Except.error e =>
        { store := store, replies := [], buttons := [], jobs := [], err := some e }
      | Except.ok link =>
        { store := insert_record fid link now store,
          replies := ["File uploaded! Share this link: " ++ link],
          buttons := [("Revoke Link", "revoke_" ++ fid)],
          jobs := [(delete_minutes * 60, m.message_id)],
          err := none }

/-- Observable outcome of the revoke callback. -/
structure RevokeOut where
  edits : List String
  store : Store
deriving DecidableEq

/-- `revoke_link` (bot.py lines 115-124): admin check, then
`data.replace('revoke_', '')`, then `update_one` on that key; the reply
is "Link revoked!" unconditionally — the update's matched count is
ignored. -/
def revoke_link (admin_id from_id : Int) (data : String) (store : Store) : RevokeOut :=
  if from_id ≠ admin_id then { edits := ["Only admin can revoke."], store := store }
  else
    { edits := ["Link revoked!"],
      store := update_one_revoked store (pyReplace data "revoke_" "") }

/-- Registry-mutating operations available in the source: the insert of
bot.py lines 99-104 and the update of line 123.  (`find_one` reads do
not change the store.) -/
inductive RegOp
  | create (file_id link : String) (ts : Nat)
  | revoke (file_id : String)
deriving DecidableEq

/-- Apply one registry operation to the store. -/
def applyOp (s : Store) : RegOp → Store
  | RegOp.create fid link ts => insert_record fid link ts s
  | RegOp.revoke fid => update_one_revoked s fid

/-- Apply a sequence of registry operations, oldest first. -/
def applyOps (s : Store) (ops : List RegOp) : Store :=
  ops.foldl applyOp s

/-- The first record with this token exists and carries
`revoked = true` — what `resolve`/`find_one` reports for a revoked
link. -/
def revokedAt (s : Store) (t : String) : Prop :=
  ∃ d, find_one s t = some d ∧ d.revoked = some true

/-! ### Store lemmas shared by several claims -/

theorem find_one_append_of_found {s : Store} {t : String} {d : FileDoc} (l : Store)
    (h : find_one s t = some d) : find_one (List.append s l) t = some d := by
  induction s with
  | nil => simp [find_one] at h
  | cons hd tl ih =>
    by_cases hc : hd.file_id = t
    · simpa [find_one, hc] using h
    · simp only [find_one, if_neg hc] at h
      simpa [List.append, find_one, hc] using ih h

theorem revokedAt_update_self (s : Store) (t : String) (d : FileDoc)
    (h : find_one s t = some d) : revokedAt (update_one_revoked s t) t := by
  induction s with
  | nil => simp [find_one] at h
  | cons hd tl ih =>
    by_cases hc : hd.file_id = t
    · exact ⟨{ hd with revoked := some true },
        by simp [update_one_revoked, find_one, hc], rfl⟩
    · simp only [find_one, if_neg hc] at h
      obtain ⟨d', hf', hr'⟩ := ih h
      exact ⟨d', by simp [update_one_revoked, find_one, hc, hf'], hr'⟩

theorem revokedAt_update (s : Store) (t fid : String) (h : revokedAt s t) :
    revokedAt (update_one_revoked s fid) t := by
  induction s with
  | nil => simp [revokedAt, find_one] at h
  | cons hd tl ih =>
    obtain ⟨d, hfind, hrev⟩ := h
    by_cases hc : hd.file_id = fid
    · subst hc
      by_cases ht : hd.file_id = t
      · subst ht
        exact ⟨{ hd with revoked := some true },
          by simp [update_one_revoked, find_one], rfl⟩
      · simp only [find_one, if_neg ht] at hfind
        exact ⟨d, by simp [update_one_revoked, find_one, ht, hfind], hrev⟩
    · by_cases ht : hd.file_id = t
      · subst ht
        simp [find_one] at hfind
        subst hfind
        exact ⟨hd, by simp [update_one_revoked, find_one, hc], hrev⟩
      · simp only [find_one, if_neg ht] at hfind
        obtain ⟨d', hf', hr'⟩ := ih ⟨d, hfind, hrev⟩
        exact ⟨d', by simp [update_one_revoked, find_one, hc, ht, hf'], hr'⟩

theorem revokedAt_applyOp (s : Store) (t : String) (op : RegOp) (h : revokedAt s t) :
    revokedAt (applyOp s op) t := by
  cases op with
  | create fid link ts =>
    obtain ⟨d, hfind, hrev⟩ := h
    exact ⟨d, find_one_append_of_found _ hfind, hrev⟩
  | revoke fid => exact revokedAt_update s t fid h

theorem revokedAt_applyOps (s : Store) (t : String) (ops : List RegOp) (h : revokedAt s t) :
    revokedAt (applyOps s ops) t := by
  induction ops generalizing s with
  | nil => exact h
  | cons op rest ih => exact ih (applyOp s op) (revokedAt_applyOp s t op h)

theorem update_one_not_found (s : Store) (t : String) (h : find_one s t = none) :
    update_one_revoked s t = s := by
  induction s with
  | nil => rfl
  | cons hd tl ih =>
    by_cases hc : hd.file_id = t
    · simp [find_one, hc] at h
    · simp only [find_one, if_neg hc] at h
      simp [update_one_revoked, hc, ih h]

theorem update_one_idem (s : Store) (t : String) :
    update_one_revoked (update_one_revoked s t) t = update_one_revoked s t := by
  induction s with
  | nil => rfl
  | cons hd tl ih =>
    by_cases hc : hd.file_id = t
    · simp [update_one_revoked, hc]
    · simp [update_one_revoked, hc, ih]

/-! ### Behaviour of `start` on the main branches -/

theorem start_reject_found (oracle : String → Option String) (channels : List String)
    (uid : Int) (mention payload : String) (store : Store) (d : FileDoc)
    (hsub : is_subscribed oracle channels = true)
    (hpre : pyStartsWith payload "file_" = true)
    (hf : find_one store (pyReplace payload "file_" "") = some d)
    (hr : d.revoked = some true) :
    start oracle channels uid mention [payload] store =
      { replies := ["Link expired or invalid."], keyboard := [], sentDocs := [],
        lookups := [pyReplace payload "file_" ""], store := store } := by
  simp [start, hsub, hpre, hf, hr]

theorem start_reject_none (oracle : String → Option String) (channels : List String)
    (uid : Int) (mention payload : String) (store : Store)
    (hsub : is_subscribed oracle channels = true)
    (hpre : pyStartsWith payload "file_" = true)
    (hf : find_one store (pyReplace payload "file_" "") = none) :
    start oracle channels uid mention [payload] store =
      { replies := ["Link expired or invalid."], keyboard := [], sentDocs := [],
        lookups := [pyReplace payload "file_" ""], store := store } := by
  simp [start, hsub, hpre, hf]

theorem start_lookups_eq (oracle : String → Option String) (channels : List String)
    (uid : Int) (mention payload : String) (store : Store)
    (hsub : is_subscribed oracle channels = true)
    (hpre : pyStartsWith payload "file_" = true) :
    (start oracle channels uid mention [payload] store).lookups =
      [pyReplace payload "file_" ""] := by
  cases hf : find_one store (pyReplace payload "file_" "") with
  | none => simp [start, hsub, hpre, hf]
  | some d =>
    cases hr : d.revoked.getD false <;> simp [start, hsub, hpre, hf, hr]

/-! ### Membership gate lemmas -/

theorem is_subscribed_cons (oracle : String → Option String) (c : String)
    (rest : List String) :
    is_subscribed oracle (c :: rest) = (satisfies oracle c && is_subscribed oracle rest) := by
  show (match oracle c with
        | none => false
        | some s => if okStatus s then is_subscribed oracle rest else false) =
      ((match oracle c with
        | none => false
        | some s => okStatus s) && is_subscribed oracle rest)
  cases oracle c with
  | none => rfl
  | some st => cases h : okStatus st <;> simp [h]

theorem is_subscribed_iff (oracle : String → Option String) (channels : List String) :
    is_subscribed oracle channels = true ↔ ∀ c ∈ channels, satisfies oracle c = true := by
  induction channels with
  | nil => simp [is_subscribed]
  | cons c rest ih =>
    rw [is_subscribed_cons]
    simp [Bool.and_eq_true, ih, List.forall_mem_cons]

theorem gate_queries_cons_sat (oracle : String → Option String) (p : String)
    (l : List String) (hp : satisfies oracle p = true) :
    gate_queries oracle (p :: l) = p :: gate_queries oracle l := by
  revert hp
  show (match oracle p with
        | none => false
        | some s => okStatus s) = true →
      (match oracle p with
       | none => [p]
       | some s => if okStatus s then p :: gate_queries oracle l else [p]) =
        p :: gate_queries oracle l
  cases oracle p with
  | none => intro h; cases h
  | some st => intro h; simp at h; simp [h]

theorem gate_queries_cons_unsat (oracle : String → Option String) (p : String)
    (l : List String) (hp : satisfies oracle p = false) :
    gate_queries oracle (p :: l) = [p] := by
  revert hp
  show (match oracle p with
        | none => false
        | some s => okStatus s) = false →
      (match oracle p with
       | none => [p]
       | some s => if okStatus s then p :: gate_queries oracle l else [p]) = [p]
  cases oracle p with
  | none => intro _; rfl
  | some st => intro h; simp at h; simp [h]

theorem gate_short_circuit (oracle : String → Option String) (front post : List String)
    (c : String)
    (hfront : ∀ c' ∈ front, satisfies oracle c' = true)
    (hc : satisfies oracle c = false) :
    is_subscribed oracle (front ++ c :: post) = false ∧
    gate_queries oracle (front ++ c :: post) = front ++ [c] := by
  revert hfront
  induction front with
  | nil =>
    intro _
    refine ⟨?_, ?_⟩
    · rw [List.nil_append, is_subscribed_cons, hc, Bool.false_and]
    · rw [List.nil_append, gate_queries_cons_unsat oracle c post hc, List.nil_append]
  | cons p ps ih =>
    intro hfront
    have hp : satisfies oracle p = true := hfront p (List.mem_cons_self p ps)
    have hps : ∀ c' ∈ ps, satisfies oracle c' = true :=
      fun c' hm => hfront c' (List.mem_cons_of_mem p hm)
    obtain ⟨h1, h2⟩ := ih hps
    refine ⟨?_, ?_⟩
    · rw [List.cons_append, is_subscribed_cons, hp, h1, Bool.true_and]
    · rw [List.cons_append, gate_queries_cons_sat oracle p _ hp, h2, List.cons_append]

/-! ### Python `str.replace` lemmas -/

theorem isPrefixOf_append_self (l r : List Char) : l.isPrefixOf (List.append l r) = true := by
  induction l with
  | nil => simp
  | cons c cs ih => simp [List.isPrefixOf, ih]

theorem str_data_append (s t : String) : (s ++ t).data = List.append s.data t.data := rfl

theorem pyReplaceFuel_no_occur (pat repl l : List Char) (fuel : Nat)
    (hocc : hasOccur pat l = false) (hfuel : l.length ≤ fuel) :
    pyReplaceFuel pat repl fuel l = l := by
  induction l generalizing fuel with
  | nil => cases fuel <;> rfl
  | cons c cs ih =>
    cases fuel with
    | zero => exact absurd hfuel (by simp)
    | succ f =>
      have hocc' : (pat.isPrefixOf (c :: cs) || hasOccur pat cs) = false := hocc
      rw [Bool.or_eq_false_iff] at hocc'
      obtain ⟨h1, h2⟩ := hocc'
      show (if pat.isPrefixOf (c :: cs) then
              List.append repl (pyReplaceFuel pat repl f ((c :: cs).drop pat.length))
            else c :: pyReplaceFuel pat repl f cs) = c :: cs
      rw [h1, if_neg (by simp)]
      rw [ih f h2 (Nat.le_of_succ_le_succ hfuel)]

theorem pyReplaceFuel_marker_head (pat repl rest : List Char) (c : Char) (cs : List Char)
    (f : Nat) (hp : pat = c :: cs) :
    pyReplaceFuel pat repl (f + 1) (List.append pat rest) =
      List.append repl (pyReplaceFuel pat repl f rest) := by
  subst hp
  show (if (c :: cs).isPrefixOf (c :: List.append cs rest) then
          List.append repl
            (pyReplaceFuel (c :: cs) repl f ((c :: List.append cs rest).drop (c :: cs).length))
        else c :: pyReplaceFuel (c :: cs) repl f (List.append cs rest)) =
      List.append repl (pyReplaceFuel (c :: cs) repl f rest)
  have hpre : (c :: cs).isPrefixOf (c :: List.append cs rest) = true :=
    isPrefixOf_append_self (c :: cs) rest
  rw [hpre, if_pos rfl]
  have hdrop : (c :: List.append cs rest).drop (c :: cs).length = rest := by
    simp
  rw [hdrop]

theorem pyStartsWith_append (marker tok : String) :
    pyStartsWith (marker ++ tok) marker = true := by
  unfold pyStartsWith
  rw [str_data_append]
  exact isPrefixOf_append_self marker.data tok.data

theorem pyReplace_marker (marker tok : String) (c : Char) (cs : List Char)
    (hp : marker.data = c :: cs)
    (hocc : hasOccur marker.data tok.data = false) :
    pyReplace (marker ++ tok) marker "" = tok := by
  unfold pyReplace
  rw [str_data_append]
  have hlen : (List.append marker.data tok.data).length = (cs.length + tok.data.length) + 1 := by
    rw [hp]
    simp [List.length_append]
  rw [hlen, pyReplaceFuel_marker_head marker.data ("" : String).data tok.data c cs _ hp]
  rw [show ("" : String).data = [] from rfl]
  rw [show List.append ([] : List Char)
        (pyReplaceFuel marker.data [] (cs.length + tok.data.length) tok.data) =
      pyReplaceFuel marker.data [] (cs.length + tok.data.length) tok.data from rfl]
  rw [pyReplaceFuel_no_occur marker.data [] tok.data _ hocc (Nat.le_add_left _ _)]

/-! ### Claim theorems -/

/-- C1: the claim says every admin media upload inserts exactly one new
FileLink with `revoked = false` and answers the admin with the link plus
a token-bound revoke action.  The code does neither: `generate_link`
(bot.py line 48) reads the unbound module-level name `context`, so
`handle_media` raises `NameError` before reaching `insert_one`.  At the
failing input — the admin (id 7) uploads a document with file_id
"doc1" — the store stays empty, no reply and no revoke button are
produced, and the error propagates out of the handler. -/
theorem C1_admin_upload_raises :
    handle_media 7 7 ⟨some "doc1", [], none, 41⟩ 0 30 [] =
      { store := [], replies := [], buttons := [], jobs := [],
        err := some (PyErr.nameError "context") } := rfl

/-- C5: the claim says `create` performs a fresh insert on every accepted
upload and that token uniqueness holds even when the same artifactRef is
uploaded twice.  In the code as written no upload ever inserts anything
(the `NameError` of `generate_link` aborts `handle_media` first, first
two conjuncts); and the insert statement itself (bot.py lines 99-104,
the `insert_record` embedding) keys the record by `file_id`, so running
it twice with the same artifactRef "a" yields two distinct records
sharing the token "a" — the uniqueness invariant would fail even with
the `NameError` fixed (third conjunct). -/
theorem C5_duplicate_upload_tokens :
    (handle_media 7 7 ⟨some "a", [], none, 1⟩ 0 30 []).store = [] ∧
    (handle_media 7 7 ⟨some "a", [], none, 1⟩ 0 30 []).err =
      some (PyErr.nameError "context") ∧
    insert_record "a" "link2" 5 (insert_record "a" "link1" 0 []) =
      [{ file_id := "a", link := "link1", revoked := some false, timestamp := 0 },
       { file_id := "a", link := "link2", revoked := some false, timestamp := 5 }] := by
  decide

/-- C7: every invocation of the upload action (the media handler, plus
the informational `/upload` command) or the revoke action by an identity
other than the configured administrator is answered with the fixed
denial message of that action and leaves the registry untouched: the
store is returned unchanged — no insert, no revoked-flag change — and
no button, job or error is produced. -/
theorem C7_non_admin_excluded (admin uid : Int) (m : Msg) (now dm : Nat)
    (data : String) (s : Store) (h : uid ≠ admin) :
    handle_media admin uid m now dm s =
      { store := s, replies := ["Only admin can upload files."],
        buttons := [], jobs := [], err := none } ∧
    revoke_link admin uid data s = { edits := ["Only admin can revoke."], store := s } ∧
    upload admin uid = ["Only admin can upload."] := by
  refine ⟨?_, ?_, ?_⟩ <;> simp [handle_media, revoke_link, upload, h]

theorem C7_witness :
    ((1 : Int) ≠ 7) ∧
    (handle_media 7 1 ⟨none, [], none, 0⟩ 0 30 [] =
      { store := [], replies := ["Only admin can upload files."],
        buttons := [], jobs := [], err := none } ∧
     revoke_link 7 1 "revoke_t" [] = { edits := ["Only admin can revoke."], store := [] } ∧
     upload 7 1 = ["Only admin can upload."]) :=
  ⟨by decide, C7_non_admin_excluded 7 1 ⟨none, [], none, 0⟩ 0 30 "revoke_t" [] (by decide)⟩

/-- C3: the gate (`is_subscribed`) returns Allowed exactly when every
configured channel reports a status among member/administrator/creator
for the user (first conjunct); the empty channel list allows every user
(second conjunct); and when the channels are a satisfied front segment
followed by a first unsatisfied-or-errored channel `c`, the result is
Denied and the loop queried exactly the front segment plus `c`, in
configuration order — it short-circuits there (last two conjuncts). -/
theorem C3_gate_allows_iff (oracle : String → Option String)
    (channels front post : List String) (c : String)
    (hfront : ∀ c' ∈ front, satisfies oracle c' = true)
    (hc : satisfies oracle c = false) :
    (is_subscribed oracle channels = true ↔ ∀ ch ∈ channels, satisfies oracle ch = true) ∧
    is_subscribed oracle [] = true ∧
    is_subscribed oracle (front ++ c :: post) = false ∧
    gate_queries oracle (front ++ c :: post) = front ++ [c] := by
  obtain ⟨h1, h2⟩ := gate_short_circuit oracle front post c hfront hc
  exact ⟨is_subscribed_iff oracle channels, rfl, h1, h2⟩

theorem C3_witness :
    (∀ c' ∈ ["@good"],
      satisfies (fun ch => if ch = "@good" then some "member" else none) c' = true) ∧
    satisfies (fun ch => if ch = "@good" then some "member" else none) "@bad" = false ∧
    ((is_subscribed (fun ch => if ch = "@good" then some "member" else none) ["@good"] = true ↔
        ∀ ch ∈ ["@good"],
          satisfies (fun ch => if ch = "@good" then some "member" else none) ch = true) ∧
      is_subscribed (fun ch => if ch = "@good" then some "member" else none) [] = true ∧
      is_subscribed (fun ch => if ch = "@good" then some "member" else none)
        (["@good"] ++ "@bad" :: ["@later"]) = false ∧
      gate_queries (fun ch => if ch = "@good" then some "member" else none)
        (["@good"] ++ "@bad" :: ["@later"]) = ["@good"] ++ ["@bad"]) :=
  ⟨by decide, by decide,
   C3_gate_allows_iff _ ["@good"] ["@good"] ["@later"] "@bad" (by decide) (by decide)⟩

/-- C9: a redemption request whose gate check fails terminates with the
subscription prompt; the prompt's keyboard carries an actionable
reference (button label and t.me URL) for every configured channel — so
in particular for every unmet one (second conjunct) — and the handler
performs zero store lookups and no delivery, and leaves the store
untouched (all recorded in the first conjunct's output: `lookups = []`,
`sentDocs = []`, `store` unchanged). -/
theorem C9_gate_denied_prompt (oracle : String → Option String) (channels : List String)
    (uid : Int) (mention : String) (args : List String) (store : Store)
    (hden : is_subscribed oracle channels = false) :
    start oracle channels uid mention args store =
      { replies := ["Please subscribe to all our channels to use this bot."],
        keyboard := channels.map (fun c => ("Subscribe to " ++ c, "https://t.me/" ++ pySlice1 c)),
        sentDocs := [], lookups := [], store := store } ∧
    (∀ c ∈ channels, satisfies oracle c = false →
      ("Subscribe to " ++ c, "https://t.me/" ++ pySlice1 c) ∈
        (start oracle channels uid mention args store).keyboard) := by
  have h1 : start oracle channels uid mention args store =
      { replies := ["Please subscribe to all our channels to use this bot."],
        keyboard := channels.map (fun c => ("Subscribe to " ++ c, "https://t.me/" ++ pySlice1 c)),
        sentDocs := [], lookups := [], store := store } := by
    simp [start, hden]
  refine ⟨h1, fun c hm _ => ?_⟩
  rw [h1]
  exact List.mem_map_of_mem _ hm

theorem C9_witness :
    is_subscribed (fun _ => none) ["@chan"] = false ∧
    start (fun _ => none) ["@chan"] 1 "u" ["file_t"] [] =
      { replies := ["Please subscribe to all our channels to use this bot."],
        keyboard := (["@chan"] : List String).map
          (fun c => ("Subscribe to " ++ c, "https://t.me/" ++ pySlice1 c)),
        sentDocs := [], lookups := [], store := [] } :=
  ⟨by decide, (C9_gate_denied_prompt (fun _ => none) ["@chan"] 1 "u" ["file_t"] [] (by decide)).1⟩

/-- C10: when the gate passes and the store record found for the token
lacks the `revoked` field entirely (`revoked = none`, read by the code
as `file_doc.get('revoked', False)`), the record is treated as not
revoked and the artifact is delivered (first conjunct); the rejection
reply appears exactly when the record explicitly carries
`revoked = true` (second conjunct). -/
theorem C10_missing_revoked_delivers (oracle : String → Option String)
    (channels : List String) (uid : Int) (mention payload : String)
    (store : Store) (d : FileDoc)
    (hsub : is_subscribed oracle channels = true)
    (hpre : pyStartsWith payload "file_" = true)
    (hf : find_one store (pyReplace payload "file_" "") = some d) :
    (d.revoked = none →
      start oracle channels uid mention [payload] store =
        { replies := ["Accessing file..."], keyboard := [],
          sentDocs := [(uid, d.file_id)],
          lookups := [pyReplace payload "file_" ""], store := store }) ∧
    ((start oracle channels uid mention [payload] store).replies =
        ["Link expired or invalid."] ↔ d.revoked = some true) := by
  constructor
  · intro hn
    simp [start, hsub, hpre, hf, hn]
  · cases hr : d.revoked with
    | none =>
      have hout : start oracle channels uid mention [payload] store =
          { replies := ["Accessing file..."], keyboard := [],
            sentDocs := [(uid, d.file_id)],
            lookups := [pyReplace payload "file_" ""], store := store } := by
        simp [start, hsub, hpre, hf, hr]
      rw [hout]
      exact iff_of_false
        (show (["Accessing file..."] : List String) ≠ ["Link expired or invalid."] by decide)
        (by decide)
    | some b =>
      cases b with
      | false =>
        have hout : start oracle channels uid mention [payload] store =
            { replies := ["Accessing file..."], keyboard := [],
              sentDocs := [(uid, d.file_id)],
              lookups := [pyReplace payload "file_" ""], store := store } := by
          simp [start, hsub, hpre, hf, hr]
        rw [hout]
        exact iff_of_false
          (show (["Accessing file..."] : List String) ≠ ["Link expired or invalid."] by decide)
          (by decide)
      | true =>
        rw [start_reject_found oracle channels uid mention payload store d hsub hpre hf hr]
        exact iff_of_true rfl rfl

theorem C10_witness :
    is_subscribed (fun _ => some "member") ([] : List String) = true ∧
    pyStartsWith "file_t" "file_" = true ∧
    find_one [⟨"t", "l", none, 0⟩] (pyReplace "file_t" "file_" "") =
      some ⟨"t", "l", none, 0⟩ ∧
    start (fun _ => some "member") [] 1 "u" ["file_t"] [⟨"t", "l", none, 0⟩] =
      { replies := ["Accessing file..."], keyboard := [], sentDocs := [(1, "t")],
        lookups := [pyReplace "file_t" "file_" ""], store := [⟨"t", "l", none, 0⟩] } :=
  ⟨rfl, by decide, by decide,
   (C10_missing_revoked_delivers (fun _ => some "member") [] 1 "u" "file_t"
     [⟨"t", "l", none, 0⟩] ⟨"t", "l", none, 0⟩ rfl (by decide) (by decide)).1 rfl⟩

/-- C4: for a gate-satisfying user, a redemption of a token with no
matching store record and a redemption of a token whose record carries
`revoked = true` produce the identical user-visible outcome — the same
"Link expired or invalid." reply, the same (empty) keyboard — and
neither mutates the store nor delivers any document. -/
theorem C4_unknown_revoked_same (oracle : String → Option String) (channels : List String)
    (uid : Int) (mention p1 p2 : String) (store : Store) (d : FileDoc)
    (hsub : is_subscribed oracle channels = true)
    (h1 : pyStartsWith p1 "file_" = true)
    (h2 : pyStartsWith p2 "file_" = true)
    (hnone : find_one store (pyReplace p1 "file_" "") = none)
    (hfound : find_one store (pyReplace p2 "file_" "") = some d)
    (hd : d.revoked = some true) :
    (start oracle channels uid mention [p1] store).replies =
      (start oracle channels uid mention [p2] store).replies ∧
    (start oracle channels uid mention [p1] store).replies =
      ["Link expired or invalid."] ∧
    (start oracle channels uid mention [p1] store).keyboard =
      (start oracle channels uid mention [p2] store).keyboard ∧
    (start oracle channels uid mention [p1] store).sentDocs = [] ∧
    (start oracle channels uid mention [p2] store).sentDocs = [] ∧
    (start oracle channels uid mention [p1] store).store = store ∧
    (start oracle channels uid mention [p2] store).store = store := by
  rw [start_reject_none oracle channels uid mention p1 store hsub h1 hnone,
    start_reject_found oracle channels uid mention p2 store d hsub h2 hfound hd]
  exact ⟨rfl, rfl, rfl, rfl, rfl, rfl, rfl⟩

theorem C4_witness :
    is_subscribed (fun _ => some "member") ([] : List String) = true ∧
    pyStartsWith "file_t1" "file_" = true ∧
    pyStartsWith "file_t2" "file_" = true ∧
    find_one [⟨"t2", "l", some true, 0⟩] (pyReplace "file_t1" "file_" "") = none ∧
    find_one [⟨"t2", "l", some true, 0⟩] (pyReplace "file_t2" "file_" "") =
      some ⟨"t2", "l", some true, 0⟩ ∧
    (start (fun _ => some "member") [] 1 "u" ["file_t1"] [⟨"t2", "l", some true, 0⟩]).replies =
      (start (fun _ => some "member") [] 1 "u" ["file_t2"] [⟨"t2", "l", some true, 0⟩]).replies ∧
    (start (fun _ => some "member") [] 1 "u" ["file_t1"] [⟨"t2", "l", some true, 0⟩]).replies =
      ["Link expired or invalid."] :=
  ⟨rfl, by decide, by decide, by decide, by decide,
   ((C4_unknown_revoked_same (fun _ => some "member") [] 1 "u" "file_t1" "file_t2"
      [⟨"t2", "l", some true, 0⟩] ⟨"t2", "l", some true, 0⟩ rfl (by decide) (by decide)
      (by decide) (by decide) rfl).1),
   ((C4_unknown_revoked_same (fun _ => some "member") [] 1 "u" "file_t1" "file_t2"
      [⟨"t2", "l", some true, 0⟩] ⟨"t2", "l", some true, 0⟩ rfl (by decide) (by decide)
      (by decide) (by decide) rfl).2.1)⟩

/-- C8: the claim says `revoke` distinguishes Ok from NotFound and the
caller can distinguish and report the not-found case.  It cannot:
`revoke_link` ignores the update result and edits "Link revoked!"
unconditionally.  At the concrete inputs below the report for a
nonexistent token ("ghost", empty store, store unchanged) is identical
to the report for an existing token — the not-found case is
unobservable to the caller. -/
theorem C8_counterexample :
    (revoke_link 7 7 "revoke_ghost" []).edits = ["Link revoked!"] ∧
    (revoke_link 7 7 "revoke_ghost" []).store = [] ∧
    (revoke_link 7 7 "revoke_t" [⟨"t", "l", some false, 0⟩]).edits = ["Link revoked!"] ∧
    (revoke_link 7 7 "revoke_t" [⟨"t", "l", some false, 0⟩]).store =
      [⟨"t", "l", some true, 0⟩] := by
  decide

/-- C8 (amended): the admin-invoked revoke handler always edits
"Link revoked!" and replaces the store by `update_one_revoked` on the
extracted token (first conjunct); that update is a no-op when no record
matches (second conjunct), idempotent on already-revoked tokens (third
conjunct), and sets `revoked = true` on the first matching record when
one exists (fourth conjunct) — so revocation never crashes, but the
not-found case is not distinguished in the caller's report. -/
theorem C8_amended_revoke (a : Int) (data t : String) (s : Store) :
    revoke_link a a data s =
      { edits := ["Link revoked!"],
        store := update_one_revoked s (pyReplace data "revoke_" "") } ∧
    (find_one s t = none → update_one_revoked s t = s) ∧
    update_one_revoked (update_one_revoked s t) t = update_one_revoked s t ∧
    (∀ d, find_one s t = some d → revokedAt (update_one_revoked s t) t) := by
  exact ⟨by simp [revoke_link], update_one_not_found s t, update_one_idem s t,
    fun d h => revokedAt_update_self s t d h⟩

theorem C8_amended_witness :
    find_one ([⟨"u", "l", some false, 0⟩] : Store) "t" = none ∧
    update_one_revoked ([⟨"u", "l", some false, 0⟩] : Store) "t" =
      [⟨"u", "l", some false, 0⟩] :=
  ⟨by decide,
   (C8_amended_revoke 7 "revoke_t" "t" [⟨"u", "l", some false, 0⟩]).2.1 (by decide)⟩

/-- C6: the claim says the raw token handed to the registry is the
payload with exactly the leading marker removed, for every token,
including tokens containing the marker as a substring.  The code uses
Python `str.replace`, which removes every occurrence: for the payload
"file_afile_b" (token "afile_b") the registry receives "ab", not
"afile_b" — witnessed both on `pyReplace` directly and on the `start`
handler's recorded lookup; the revoke side behaves the same way. -/
theorem C6_counterexample :
    pyStartsWith "file_afile_b" "file_" = true ∧
    pyReplace "file_afile_b" "file_" "" = "ab" ∧
    "ab" ≠ "afile_b" ∧
    (start (fun _ => some "member") [] 1 "u" ["file_afile_b"] []).lookups = ["ab"] ∧
    pyReplace "revoke_xrevoke_y" "revoke_" "" = "xy" := by
  decide

/-- C6 (amended): the raw token passed to the registry is the payload
with every occurrence of the fixed marker removed (Python `str.replace`
semantics); this coincides with stripping exactly the leading marker
precisely when the token itself does not contain the marker as a
substring — in that case redemption looks up exactly the token and the
revoke handler updates exactly the token. -/
theorem C6_amended_markerless_tokens (tok mention : String)
    (oracle : String → Option String) (channels : List String)
    (uid a : Int) (store : Store)
    (hsub : is_subscribed oracle channels = true)
    (hf : hasOccur "file_".data tok.data = false)
    (hr : hasOccur "revoke_".data tok.data = false) :
    pyReplace ("file_" ++ tok) "file_" "" = tok ∧
    pyReplace ("revoke_" ++ tok) "revoke_" "" = tok ∧
    (start oracle channels uid mention ["file_" ++ tok] store).lookups = [tok] ∧
    (revoke_link a a ("revoke_" ++ tok) store).store = update_one_revoked store tok := by
  have h1 : pyReplace ("file_" ++ tok) "file_" "" = tok :=
    pyReplace_marker "file_" tok 'f' "ile_".data rfl hf
  have h2 : pyReplace ("revoke_" ++ tok) "revoke_" "" = tok :=
    pyReplace_marker "revoke_" tok 'r' "evoke_".data rfl hr
  refine ⟨h1, h2, ?_, ?_⟩
  · rw [start_lookups_eq oracle channels uid mention ("file_" ++ tok) store hsub
      (pyStartsWith_append "file_" tok), h1]
  · simp [revoke_link, h2]

theorem C6_amended_witness :
    is_subscribed (fun _ => some "member") ([] : List String) = true ∧
    hasOccur "file_".data "tkn".data = false ∧
    hasOccur "revoke_".data "tkn".data = false ∧
    (pyReplace ("file_" ++ "tkn") "file_" "" = "tkn" ∧
     pyReplace ("revoke_" ++ "tkn") "revoke_" "" = "tkn" ∧
     (start (fun _ => some "member") [] 1 "u" ["file_" ++ "tkn"] []).lookups = ["tkn"] ∧
     (revoke_link 7 7 ("revoke_" ++ "tkn") []).store = update_one_revoked [] "tkn") :=
  ⟨rfl, by decide, by decide,
   C6_amended_markerless_tokens "tkn" "u" (fun _ => some "member") [] 1 7 []
     rfl (by decide) (by decide)⟩

/-- C2: once a revoke of a token succeeds (the token had a record when
`revoke_link` ran), then after any further sequence of registry
operations — inserts as performed by the upload path's lines 99-104,
with any artifact, link and timestamp, and further revokes of any
token — `resolve`/`find_one` still reports that token's first record
with `revoked = true` (first conjunct: no operation ever turns the flag
back off), and every redemption attempt for that token by a
gate-satisfying user ends in the terminal "Link expired or invalid."
reply with no delivery (remaining conjuncts). -/
theorem C2_revocation_monotonic (a uid : Int) (mention data payload : String)
    (store : Store) (d0 : FileDoc) (ops : List RegOp)
    (oracle : String → Option String) (channels : List String)
    (hfound : find_one store (pyReplace data "revoke_" "") = some d0)
    (hsub : is_subscribed oracle channels = true)
    (hpre : pyStartsWith payload "file_" = true)
    (htok : pyReplace payload "file_" "" = pyReplace data "revoke_" "") :
    revokedAt (applyOps ((revoke_link a a data store).store) ops)
      (pyReplace data "revoke_" "") ∧
    (start oracle channels uid mention [payload]
        (applyOps ((revoke_link a a data store).store) ops)).replies =
      ["Link expired or invalid."] ∧
    (start oracle channels uid mention [payload]
        (applyOps ((revoke_link a a data store).store) ops)).sentDocs = [] := by
  have hst : (revoke_link a a data store).store =
      update_one_revoked store (pyReplace data "revoke_" "") := by
    simp [revoke_link]
  rw [hst]
  have h0 : revokedAt (update_one_revoked store (pyReplace data "revoke_" ""))
      (pyReplace data "revoke_" "") := revokedAt_update_self store _ d0 hfound
  obtain ⟨d, hfd, hrd⟩ := revokedAt_applyOps _ _ ops h0
  have hfd' : find_one
      (applyOps (update_one_revoked store (pyReplace data "revoke_" "")) ops)
      (pyReplace payload "file_" "") = some d := by
    rw [htok]
    exact hfd
  have hrej := start_reject_found oracle channels uid mention payload
    (applyOps (update_one_revoked store (pyReplace data "revoke_" "")) ops) d
    hsub hpre hfd' hrd
  exact ⟨⟨d, hfd, hrd⟩, by rw [hrej], by rw [hrej]⟩

theorem C2_witness :
    find_one [⟨"t", "l", some false, 0⟩] (pyReplace "revoke_t" "revoke_" "") =
      some ⟨"t", "l", some false, 0⟩ ∧
    is_subscribed (fun _ => some "member") ([] : List String) = true ∧
    pyStartsWith "file_t" "file_" = true ∧
    pyReplace "file_t" "file_" "" = pyReplace "revoke_t" "revoke_" "" ∧
    (revokedAt
        (applyOps ((revoke_link 7 7 "revoke_t" [⟨"t", "l", some false, 0⟩]).store)
          [RegOp.create "t" "l2" 9])
        (pyReplace "revoke_t" "revoke_" "") ∧
      (start (fun _ => some "member") [] 1 "u" ["file_t"]
          (applyOps ((revoke_link 7 7 "revoke_t" [⟨"t", "l", some false, 0⟩]).store)
            [RegOp.create "t" "l2" 9])).replies = ["Link expired or invalid."] ∧
      (start (fun _ => some "member") [] 1 "u" ["file_t"]
          (applyOps ((revoke_link 7 7 "revoke_t" [⟨"t", "l", some false, 0⟩]).store)
            [RegOp.create "t" "l2" 9])).sentDocs = []) :=
  ⟨by decide, rfl, by decide, by decide,
   C2_revocation_monotonic 7 1 "u" "revoke_t" "file_t" [⟨"t", "l", some false, 0⟩]
     ⟨"t", "l", some false, 0⟩ [RegOp.create "t" "l2" 9] (fun _ => some "member") []
     (by decide) rfl (by decide) (by decide)⟩
